import Mathlib

/-!
Verification development for a minimal retrieval-augmented chat backend
(single source file `app.py`).  Python strings are embedded as `List Char`,
the SQLite tables as Lean lists with explicit autoincrement counters, and
the external completion provider as a function returning `Except`.
-/

set_option linter.all false

namespace RagChatbot

/-- One row of the `docs` table (columns: id, title, chunk, created_at). -/
structure DocRow where
  id : Int
  title : List Char
  chunk : List Char
  created_at : List Char
deriving DecidableEq

/-- One row of the `conversations` table (columns: id, created_at). -/
structure ConvRow where
  id : Int
  created_at : List Char
deriving DecidableEq

/-- One row of the `messages` table
(columns: id, conversation_id, role, content, created_at). -/
structure MsgRow where
  id : Int
  conversation_id : Int
  role : List Char
  content : List Char
  created_at : List Char
deriving DecidableEq

/-- The SQLite database: the three tables in storage (rowid) order, plus the
next AUTOINCREMENT identifier of each table. -/
structure DB where
  conversations : List ConvRow
  messages : List MsgRow
  docs : List DocRow
  nextConvId : Int
  nextMsgId : Int
  nextDocId : Int
deriving DecidableEq

/-- A database with empty tables, autoincrement counters starting at 1,
as produced by `init_db` on a fresh file. -/
def initDB : DB := ⟨[], [], [], 1, 1, 1⟩

/-- `create_conversation_if_needed` (app.py lines 132-146).  Python's
`if conversation_id:` is truthy exactly when the optional value is present
and nonzero; in that case the supplied identifier is returned with no
database access.  Otherwise one conversation row is inserted with the
current timestamp and its assigned rowid is returned. -/
def createConversationIfNeeded (conversation_id : Option Int) (now : List Char)
    (db : DB) : Int × DB :=
  match conversation_id with
  | some c =>
      if c = 0 then
        (db.nextConvId,
          { db with
            conversations := db.conversations ++ [⟨db.nextConvId, now⟩],
            nextConvId := db.nextConvId + 1 })
      else
        (c, db)
  | none =>
      (db.nextConvId,
        { db with
          conversations := db.conversations ++ [⟨db.nextConvId, now⟩],
          nextConvId := db.nextConvId + 1 })

/-- `save_message` (app.py lines 149-160): inserts one message row and
returns its assigned rowid. -/
def saveMessage (conversation_id : Int) (role content now : List Char)
    (db : DB) : Int × DB :=
  (db.nextMsgId,
    { db with
      messages := db.messages ++
        [⟨db.nextMsgId, conversation_id, role, content, now⟩],
      nextMsgId := db.nextMsgId + 1 })

/-- ASCII lower-casing as used by SQLite's default `LIKE`: the letters
A-Z fold to a-z, every other character is left alone. -/
def charLower (c : Char) : Char :=
  if 65 ≤ c.toNat ∧ c.toNat ≤ 90 then Char.ofNat (c.toNat + 32) else c

/-- Character comparison of SQLite's default `LIKE`: case-insensitive for
the ASCII range. -/
def likeCharEq (p c : Char) : Bool :=
  charLower p == charLower c

/-- SQLite `LIKE` pattern matching, structurally recursive on a fuel
argument: `%` matches any (possibly empty) sequence, `_` matches any
single character, any other pattern character matches one text character
up to ASCII case.  Every step strictly decreases the combined length of
pattern and text, so fuel equal to that combined length plus one (as
supplied by `likeMatch`) never runs out. -/
def likeMatchFuel : Nat → List Char → List Char → Bool
  | 0, _, _ => false
  | _ + 1, [], [] => true
  | _ + 1, [], _ :: _ => false
  | fuel + 1, '%' :: ps1, [] => likeMatchFuel fuel ps1 []
  | fuel + 1, '%' :: ps1, c :: s1 =>
      likeMatchFuel fuel ps1 (c :: s1) || likeMatchFuel fuel ('%' :: ps1) s1
  | _ + 1, '_' :: _, [] => false
  | fuel + 1, '_' :: ps1, _ :: s1 => likeMatchFuel fuel ps1 s1
  | _ + 1, _ :: _, [] => false
  | fuel + 1, p :: ps1, c :: s1 => likeCharEq p c && likeMatchFuel fuel ps1 s1

/-- SQLite `LIKE` with sufficient fuel. -/
def likeMatch (ps s : List Char) : Bool :=
  likeMatchFuel (ps.length + s.length + 1) ps s

/-- The pattern `f"%{question}%"` built in `retrieve_docs` (app.py line 166). -/
def likePattern (question : List Char) : List Char :=
  '%' :: question ++ ['%']

/-- The `WHERE chunk LIKE ? OR title LIKE ?` test of `retrieve_docs`. -/
def docMatches (question : List Char) (row : DocRow) : Bool :=
  likeMatch (likePattern question) row.chunk ||
    likeMatch (likePattern question) row.title

/-- `retrieve_docs` (app.py lines 163-178): rows of `docs` satisfying the
`LIKE` test, in storage order, limited by `top_k`.  SQLite treats a
negative `LIMIT` as no limit. -/
def retrieveDocs (question : List Char) (top_k : Int) (db : DB) : List DocRow :=
  if top_k < 0 then db.docs.filter (docMatches question)
  else (db.docs.filter (docMatches question)).take top_k.toNat

/-- Decimal rendering of a natural number, as Python's f-string does for
the 1-based enumeration index in `build_prompt`. -/
def numToChars (n : Nat) : List Char :=
  (toString n).data

/-- `build_prompt` (app.py lines 181-196).  With no retrieved documents it
is the bare instruction-plus-question string; otherwise the labeled chunks
joined by blank lines, then the question, then the fallback instruction. -/
def buildPrompt (question : List Char) (docs : List DocRow) : List Char :=
  if docs.isEmpty then
    ("Answer the user's question clearly.\n\nQuestion: ").data ++ question
  else
    let context_parts := docs.enum.map fun p =>
      ("[Document ").data ++ numToChars (p.1 + 1) ++ ("] ").data ++ p.2.chunk
    let context_text := List.intercalate ("\n\n").data context_parts
    ("You are a helpful assistant. Use the following context documents when they are relevant.\n\n").data
      ++ context_text
      ++ ("\n\nQuestion: ").data ++ question
      ++ ("\n\nAnswer based on the context when possible. If the context is not relevant, answer from your own knowledge.").data

/-- The request body of `POST /v1/chat/answer` (app.py lines 91-96). -/
structure ChatRequest where
  conversation_id : Option Int := none
  user_id : Option (List Char) := none
  question : List Char
  use_retrieval : Bool := true
  top_k : Int := 3
deriving DecidableEq

/-- A citation in the response (app.py lines 99-102). -/
structure Citation where
  doc_id : Int
  title : List Char
  snippet : List Char
deriving DecidableEq

/-- The response body of `POST /v1/chat/answer` (app.py lines 105-109). -/
structure ChatResponse where
  conversation_id : Int
  message_id : Int
  answer : List Char
  citations : List Citation
deriving DecidableEq

/-- The snippet truncation applied to each citation
(app.py lines 244-246). -/
def makeSnippet (chunk : List Char) : List Char :=
  if chunk.length > 200 then chunk.take 200 ++ ("...").data else chunk

/-- `chat_answer` (app.py lines 218-260).  The provider is the single
`client.chat.completions.create` call, abstracted as a function from the
built prompt to `Except ε (List Char)`: `Except.error` models a raised
provider-side exception, which propagates and leaves the database in the
state already committed (conversation row if created, plus the user
message).  On success the assistant message is saved and the response
assembled. -/
def chatAnswer {ε : Type} (provider : List Char → Except ε (List Char))
    (req : ChatRequest) (now : List Char) (db : DB) :
    Except ε ChatResponse × DB :=
  let r1 := createConversationIfNeeded req.conversation_id now db
  let conversation_id := r1.1
  let db1 := r1.2
  let r2 := saveMessage conversation_id ("user").data req.question now db1
  let db2 := r2.2
  let retrieved_rows :=
    if req.use_retrieval then retrieveDocs req.question req.top_k db2 else []
  let prompt := buildPrompt req.question retrieved_rows
  match provider prompt with
  | .error e => (.error e, db2)
  | .ok answer =>
      let r3 := saveMessage conversation_id ("assistant").data answer now db2
      let assistant_message_id := r3.1
      let db3 := r3.2
      let citations := retrieved_rows.map fun row =>
        ({ doc_id := row.id, title := row.title,
           snippet := makeSnippet row.chunk } : Citation)
      (.ok { conversation_id := conversation_id,
             message_id := assistant_message_id,
             answer := answer,
             citations := citations }, db3)

/-- A store holding a single document chunk with upper-case text,
used to exhibit the case-insensitivity of the `LIKE` retrieval. -/
def dbUpper : DB :=
  { initDB with docs := [⟨1, ("policy").data, ("ABC").data, ([] : List Char)⟩] }

/-- A store holding five single-character chunks that all match the
query "a", used to exercise the `top_k` limit. -/
def dbFive : DB :=
  { initDB with docs :=
      [⟨1, ("policy").data, ("a1").data, ([] : List Char)⟩,
       ⟨2, ("policy").data, ("a2").data, ([] : List Char)⟩,
       ⟨3, ("policy").data, ("a3").data, ([] : List Char)⟩,
       ⟨4, ("policy").data, ("a4").data, ([] : List Char)⟩,
       ⟨5, ("policy").data, ("a5").data, ([] : List Char)⟩] }

/-- A request supplying `conversation_id = 7`, used as concrete input for
the chat pipeline witnesses. -/
def reqSeven : ChatRequest :=
  { conversation_id := some 7, question := ("hello").data }

/-- A store holding one chunk that matches the question of `reqSeven`. -/
def dbHello : DB :=
  { initDB with docs :=
      [⟨1, ("policy").data, ("hello world").data, ([] : List Char)⟩] }

/-! Helper lemmas shared by several claim proofs. -/

/-- `create_conversation_if_needed` touches only the `conversations` table
and its autoincrement counter. -/
theorem createConversation_preserves (cid? : Option Int) (now : List Char)
    (db : DB) :
    (createConversationIfNeeded cid? now db).2.messages = db.messages ∧
    (createConversationIfNeeded cid? now db).2.docs = db.docs ∧
    (createConversationIfNeeded cid? now db).2.nextMsgId = db.nextMsgId := by
  rcases cid? with _ | c
  · exact ⟨rfl, rfl, rfl⟩
  · by_cases h : c = 0 <;> simp [createConversationIfNeeded, h]

/-- `retrieve_docs` reads only the `docs` table. -/
theorem retrieveDocs_eq_of_docs (q : List Char) (k : Int) (db1 db2 : DB)
    (h : db1.docs = db2.docs) :
    retrieveDocs q k db1 = retrieveDocs q k db2 := by
  simp only [retrieveDocs, h]

/-! Claim theorems. -/

/-- C1 counterexample: supplying the boundary identifier 0 does not return
0 unchanged — Python's truthiness test treats 0 like an absent identifier,
so a fresh conversation row is inserted and its new identifier returned. -/
theorem C1_counterexample :
    (createConversationIfNeeded (some 0) ([] : List Char) initDB).1 ≠ 0 ∧
    (createConversationIfNeeded (some 0) ([] : List Char) initDB).2.conversations
      ≠ initDB.conversations := by
  decide

/-- C1 amended: a supplied nonzero identifier is returned unchanged with no
database access; a supplied identifier of 0 behaves exactly like an absent
one; with no identifier (or 0) one conversation row carrying the current
timestamp is inserted and its newly assigned identifier returned, the
other tables untouched. -/
theorem C1_amended (c : Int) (now : List Char) (db : DB) :
    (c ≠ 0 → createConversationIfNeeded (some c) now db = (c, db)) ∧
    createConversationIfNeeded (some 0) now db
      = createConversationIfNeeded none now db ∧
    (createConversationIfNeeded none now db).1 = db.nextConvId ∧
    (createConversationIfNeeded none now db).2.conversations
      = db.conversations ++ [⟨db.nextConvId, now⟩] ∧
    (createConversationIfNeeded none now db).2.messages = db.messages ∧
    (createConversationIfNeeded none now db).2.docs = db.docs := by
  refine ⟨fun h => ?_, by simp [createConversationIfNeeded], rfl, rfl, rfl, rfl⟩
  simp [createConversationIfNeeded, h]

/-- C1 witness: the amended theorem applied at the supplied identifier 5. -/
theorem C1_amended_witness :
    createConversationIfNeeded (some 5) ([] : List Char) initDB = (5, initDB) :=
  (C1_amended 5 ([] : List Char) initDB).1 (by decide)

/-- C2 counterexample: with the single stored chunk "ABC" and the query
"abc", `retrieve_docs` returns that row even though neither its chunk text
nor its title contains "abc" as a case-sensitive substring — SQLite's
default `LIKE` is case-insensitive on ASCII. -/
theorem C2_counterexample :
    retrieveDocs (("abc").data) 3 dbUpper
      = [⟨1, ("policy").data, ("ABC").data, ([] : List Char)⟩] ∧
    ¬ ("abc").data <:+: ("ABC").data ∧
    ¬ ("abc").data <:+: ("policy").data := by
  decide

/-- C2 amended: `retrieve_docs` returns only rows whose chunk text or
title matches the SQL pattern wrapping the query in wildcards — a
case-insensitive (ASCII) containment test in which percent and underscore
characters of the query themselves act as wildcards — the rows appearing
in storage order (a sublist of the table) with no ranking, and at most
`top_k` of them when `top_k` is non-negative. -/
theorem C2_amended (question : List Char) (top_k : Int) (db : DB) :
    (retrieveDocs question top_k db).Sublist db.docs ∧
    (∀ r ∈ retrieveDocs question top_k db, docMatches question r = true) ∧
    (0 ≤ top_k → (retrieveDocs question top_k db).length ≤ top_k.toNat) := by
  refine ⟨?_, ?_, ?_⟩
  · simp only [retrieveDocs]
    split
    · exact List.filter_sublist _
    · exact (List.take_sublist _ _).trans (List.filter_sublist _)
  · intro r hr
    simp only [retrieveDocs] at hr
    split at hr
    · exact (List.mem_filter.mp hr).2
    · exact (List.mem_filter.mp (List.mem_of_mem_take hr)).2
  · intro hk
    simp only [retrieveDocs, if_neg (by omega : ¬ top_k < 0)]
    exact List.length_take_le _ _

/-- C2 witness: the amended theorem applied to the upper-case store. -/
theorem C2_amended_witness :
    (retrieveDocs (("abc").data) 3 dbUpper).Sublist dbUpper.docs ∧
    (retrieveDocs (("abc").data) 3 dbUpper).length ≤ (3 : Int).toNat :=
  ⟨(C2_amended (("abc").data) 3 dbUpper).1,
   (C2_amended (("abc").data) 3 dbUpper).2.2 (by decide)⟩

/-- C6: with `top_k = 2` and five matching chunks exactly two rows are
returned; with no matching chunk the result is empty for every `top_k`;
and the prompt built from an empty retrieval is the bare
instruction-plus-question string with no context section. -/
theorem C6_retrieval_counts :
    (∀ (q : List Char) (db : DB),
        (db.docs.filter (docMatches q)).length = 5 →
        (retrieveDocs q 2 db).length = 2) ∧
    (∀ (q : List Char) (k : Int) (db : DB),
        db.docs.filter (docMatches q) = [] →
        retrieveDocs q k db = []) ∧
    (∀ question : List Char, buildPrompt question []
        = ("Answer the user's question clearly.\n\nQuestion: ").data
            ++ question) := by
  refine ⟨?_, ?_, fun question => rfl⟩
  · intro q db h5
    simp only [retrieveDocs, if_neg (by decide : ¬ (2 : Int) < 0)]
    rw [List.length_take, h5]
    rfl
  · intro q k db h0
    simp only [retrieveDocs, h0]
    split <;> simp

/-- C6 witness: the counting theorem applied to a five-match store and to
the empty store. -/
theorem C6_retrieval_counts_witness :
    (retrieveDocs (("a").data) 2 dbFive).length = 2 ∧
    retrieveDocs (("a").data) 3 initDB = [] :=
  ⟨C6_retrieval_counts.1 (("a").data) dbFive (by decide),
   C6_retrieval_counts.2.1 (("a").data) 3 initDB (by decide)⟩

/-- C3: when an existing (hence nonzero) conversation identifier is
supplied and the provider call succeeds, the request appends exactly the
user message followed by the assistant message, both referencing the
supplied identifier, leaves the conversations and docs tables unchanged,
and returns the supplied identifier. -/
theorem C3_two_messages {e : Type} (provider : List Char → Except e (List Char))
    (req : ChatRequest) (now : List Char) (db : DB) (cid : Int) (ans : List Char)
    (hcid : req.conversation_id = some cid) (h0 : cid ≠ 0)
    (hok : provider (buildPrompt req.question
        (if req.use_retrieval then retrieveDocs req.question req.top_k db
         else []))
      = .ok ans) :
    (chatAnswer provider req now db).2.messages
        = db.messages ++
          [⟨db.nextMsgId, cid, ("user").data, req.question, now⟩,
           ⟨db.nextMsgId + 1, cid, ("assistant").data, ans, now⟩] ∧
    (chatAnswer provider req now db).2.conversations = db.conversations ∧
    (chatAnswer provider req now db).2.docs = db.docs ∧
    ∃ resp, (chatAnswer provider req now db).1 = .ok resp ∧
      resp.conversation_id = cid := by
  simp only [chatAnswer, hcid, createConversationIfNeeded, if_neg h0,
    saveMessage]
  rw [show retrieveDocs req.question req.top_k
      { db with
        messages := db.messages ++
          [⟨db.nextMsgId, cid, ("user").data, req.question, now⟩],
        nextMsgId := db.nextMsgId + 1 }
      = retrieveDocs req.question req.top_k db from rfl]
  rw [hok]
  simp

/-- C3 witness: the frame theorem applied to a request for conversation 7
against the one-chunk store, with a provider that answers "ANS". -/
theorem C3_two_messages_witness :
    (chatAnswer (fun _ => (Except.ok (("ANS").data) : Except Unit (List Char)))
        reqSeven ([] : List Char) dbHello).2.messages
      = dbHello.messages ++
        [⟨dbHello.nextMsgId, 7, ("user").data, reqSeven.question,
          ([] : List Char)⟩,
         ⟨dbHello.nextMsgId + 1, 7, ("assistant").data, ("ANS").data,
          ([] : List Char)⟩] ∧
    (chatAnswer (fun _ => (Except.ok (("ANS").data) : Except Unit (List Char)))
        reqSeven ([] : List Char) dbHello).2.conversations
      = dbHello.conversations ∧
    (chatAnswer (fun _ => (Except.ok (("ANS").data) : Except Unit (List Char)))
        reqSeven ([] : List Char) dbHello).2.docs = dbHello.docs ∧
    ∃ resp,
      (chatAnswer (fun _ => (Except.ok (("ANS").data) : Except Unit (List Char)))
          reqSeven ([] : List Char) dbHello).1 = .ok resp ∧
      resp.conversation_id = 7 :=
  C3_two_messages _ reqSeven ([] : List Char) dbHello 7 (("ANS").data) rfl
    (by decide) rfl

/-- C4: on a successful request the citations are exactly the retrieved
rows in order, each snippet being the stored chunk text unmodified when it
is at most 200 characters long and its first 200 characters followed by
"..." when longer. -/
theorem C4_snippet (req : ChatRequest) (now ans : List Char) (db : DB) :
    (∃ resp db2,
      chatAnswer (fun _ => (Except.ok ans : Except Unit (List Char))) req now db
        = (.ok resp, db2) ∧
      resp.citations =
        (if req.use_retrieval then retrieveDocs req.question req.top_k db
         else []).map
          (fun row => ⟨row.id, row.title, makeSnippet row.chunk⟩)) ∧
    (∀ s : List Char,
      (s.length ≤ 200 → makeSnippet s = s) ∧
      (200 < s.length → makeSnippet s = s.take 200 ++ ("...").data)) := by
  obtain ⟨h1, h2, h3⟩ := createConversation_preserves req.conversation_id now db
  refine ⟨⟨_, _, rfl, ?_⟩, ?_⟩
  · have hud : retrieveDocs req.question req.top_k
        (saveMessage (createConversationIfNeeded req.conversation_id now db).1
          (("user").data) req.question now
          (createConversationIfNeeded req.conversation_id now db).2).2
        = retrieveDocs req.question req.top_k db :=
      retrieveDocs_eq_of_docs _ _ _ _ h2
    rw [hud]
  · intro s
    constructor
    · intro h
      rw [makeSnippet, if_neg (by omega)]
    · intro h
      rw [makeSnippet, if_pos (by omega)]

/-- C4 witness: the truncation characterisation applied at lengths 200
(unmodified) and 201 (truncated with the ellipsis marker). -/
theorem C4_snippet_witness :
    makeSnippet (List.replicate 200 'a') = List.replicate 200 'a' ∧
    makeSnippet (List.replicate 201 'a')
      = List.replicate 200 'a' ++ ("...").data :=
  ⟨((C4_snippet { question := ([] : List Char) } ([] : List Char)
      ([] : List Char) initDB).2 (List.replicate 200 'a')).1
     (by rw [List.length_replicate]),
   ((C4_snippet { question := ([] : List Char) } ([] : List Char)
      ([] : List Char) initDB).2 (List.replicate 201 'a')).2
     (by rw [List.length_replicate]; omega)⟩

/-- C7: the prompt built from a question and two chunks contains the first
chunk labeled "Document 1", then the second chunk labeled "Document 2",
then the question, in that order; the label text written by the code is
literally "[Document 1] " and "[Document 2] ". -/
theorem C7_prompt_order (question : List Char) (r1 r2 : DocRow) :
    ("[Document ").data ++ numToChars 1 ++ ("] ").data
      = ("[Document 1] ").data ∧
    ("[Document ").data ++ numToChars 2 ++ ("] ").data
      = ("[Document 2] ").data ∧
    ∃ p1 p2 p3 p4 : List Char,
      buildPrompt question [r1, r2]
        = p1 ++ ("[Document 1] ").data ++ r1.chunk
            ++ p2 ++ ("[Document 2] ").data ++ r2.chunk
            ++ p3 ++ question ++ p4 := by
  refine ⟨by decide, by decide,
    ("You are a helpful assistant. Use the following context documents when they are relevant.\n\n").data,
    ("\n\n").data, ("\n\nQuestion: ").data,
    ("\n\nAnswer based on the context when possible. If the context is not relevant, answer from your own knowledge.").data, ?_⟩
  rw [← (by decide : ("[Document ").data ++ numToChars 1 ++ ("] ").data
        = ("[Document 1] ").data),
     ← (by decide : ("[Document ").data ++ numToChars 2 ++ ("] ").data
        = ("[Document 2] ").data)]
  simp [buildPrompt, List.enum, List.enumFrom, List.intercalate,
    List.intersperse, List.append_assoc]

set_option maxRecDepth 40000 in
/-- C8: the prompt built from "What is the policy on X?" and no chunks
contains the question verbatim and no occurrence of "Document"; in
general, with an empty chunk list the result is exactly the bare
instruction-plus-question string. -/
theorem C8_prompt_no_context :
    ("What is the policy on X?").data <:+:
        buildPrompt (("What is the policy on X?").data) [] ∧
    ¬ (("Document").data <:+:
        buildPrompt (("What is the policy on X?").data) []) ∧
    (∀ question : List Char, buildPrompt question []
        = ("Answer the user's question clearly.\n\nQuestion: ").data
            ++ question) := by
  refine ⟨by decide, by decide, fun question => rfl⟩

/-- C9: when the provider call fails, the failure value propagates to the
caller unchanged (no retry, no fallback answer), while the user message —
with the conversation row, if one was created — is already committed and
remains persisted, the docs table is untouched, and no assistant message
is written: every assistant-role row of the final state was there
before the request. -/
theorem C9_provider_failure {e : Type} (err : e) (req : ChatRequest)
    (now : List Char) (db : DB) :
    (chatAnswer (fun _ => Except.error err) req now db).1
      = Except.error err ∧
    (chatAnswer (fun _ => Except.error err) req now db).2.messages
      = db.messages ++
        [⟨db.nextMsgId,
          (createConversationIfNeeded req.conversation_id now db).1,
          ("user").data, req.question, now⟩] ∧
    (chatAnswer (fun _ => Except.error err) req now db).2.conversations
      = (createConversationIfNeeded req.conversation_id now db).2.conversations ∧
    (chatAnswer (fun _ => Except.error err) req now db).2.docs = db.docs ∧
    (∀ m ∈ (chatAnswer (fun _ => Except.error err) req now db).2.messages,
        m.role = ("assistant").data → m ∈ db.messages) := by
  obtain ⟨h1, h2, h3⟩ := createConversation_preserves req.conversation_id now db
  refine ⟨rfl, ?_, ?_, ?_, ?_⟩
  · simp only [chatAnswer, saveMessage, h1, h3]
  · rfl
  · simp only [chatAnswer, saveMessage, h2]
  · intro m hm hrole
    simp only [chatAnswer, saveMessage, h1, h3, List.mem_append] at hm
    rcases hm with hm | hm
    · exact hm
    · simp only [List.mem_singleton] at hm
      subst hm
      simp at hrole

/-- C9 witness: the failure theorem applied to a request for conversation
7 against the one-chunk store, with a provider that always fails. -/
theorem C9_provider_failure_witness :
    (chatAnswer (fun _ => (Except.error () : Except Unit (List Char)))
        reqSeven ([] : List Char) dbHello).1 = Except.error () ∧
    (chatAnswer (fun _ => (Except.error () : Except Unit (List Char)))
        reqSeven ([] : List Char) dbHello).2.messages
      = dbHello.messages ++
        [⟨1, 7, ("user").data, reqSeven.question, ([] : List Char)⟩] :=
  ⟨(C9_provider_failure () reqSeven ([] : List Char) dbHello).1,
   (C9_provider_failure () reqSeven ([] : List Char) dbHello).2.1⟩

/-- C10: on every successful request the response's `message_id` is the
identifier assigned to the newly persisted assistant message — the second
of the two appended rows — and differs from the user message's
identifier. -/
theorem C10_message_id (req : ChatRequest) (now ans : List Char) (db : DB) :
    ∃ resp db2,
      chatAnswer (fun _ => (Except.ok ans : Except Unit (List Char))) req now db
        = (.ok resp, db2) ∧
      db2.messages = db.messages ++
        [⟨db.nextMsgId, resp.conversation_id, ("user").data,
          req.question, now⟩,
         ⟨db.nextMsgId + 1, resp.conversation_id, ("assistant").data,
          ans, now⟩] ∧
      resp.message_id = db.nextMsgId + 1 ∧
      resp.message_id ≠ db.nextMsgId ∧
      resp.answer = ans := by
  obtain ⟨h1, h2, h3⟩ := createConversation_preserves req.conversation_id now db
  refine ⟨_, _, rfl, ?_, ?_, ?_, rfl⟩
  · simp only [chatAnswer, saveMessage, h1, h3, List.append_assoc,
      List.singleton_append]
  · simp only [chatAnswer, saveMessage, h3]
  · simp only [chatAnswer, saveMessage, h3]
    intro hcontra
    omega

end RagChatbot
